import Mathlib

/-!
Verification of the clanopedia governance engine and frontend stores.

The repository ships the React frontend (collection settings page, proposals
page, query store) together with the natural-language specification of the
backend governance canister.  The backend canister itself (proposal state
machine, vote tally, executor) is not among the shipped sources; following the
specification's own repository design note (spec §9), collections and
proposals are modelled as explicit records passed to pure transition
functions, and every backend operation below is marked `Modelled from the
spec:` with the section it is taken from.  Frontend functions
(`handleSaveConfig`, the query store) are translated directly from the
TypeScript sources.
-/

/-- Principals arrive as already-verified textual identifiers (spec §1). -/
abbrev Principal := String

/-- Governance models of a collection (spec §3, §4.1); a closed variant,
mirrored by the frontend `GovernanceModel` candid type. -/
inductive GovernanceModel
  | Permissionless
  | Multisig
  | TokenBased
  | SnsIntegrated
deriving DecidableEq, Repr

/-- Vote choices (spec §3). -/
inductive VoteChoice
  | Yes
  | No
  | Abstain
deriving DecidableEq, Repr

/-- Proposal statuses (spec §3, §4.2), also destructured by the frontend
`getStatusText` in ProposalsPage.tsx. -/
inductive ProposalStatus
  | Active
  | Approved
  | Rejected
  | Executed
  | Expired
deriving DecidableEq, Repr

/-- Proposal type variants (spec §3). -/
inductive ProposalType
  | EmbedDocument (documents : List String)
  | BatchEmbed (document_ids : List String)
  | AddAdmin (p : Principal)
  | RemoveAdmin (p : Principal)
  | ChangeThreshold (value : Nat)
  | UpdateQuorum (value : Nat)
  | TransferGenesis (new_owner : Principal)
deriving DecidableEq, Repr

/-- A recorded vote: voter, choice and (for token-based collections) the
weight captured from the voter's balance at the moment the vote was cast
(spec §3, §4.1). -/
structure VoteRecord where
  voter : Principal
  choice : VoteChoice
  weight : Nat
deriving DecidableEq, Repr

/-- Proposal record (spec §3).  Per the repository design note (spec §9)
proposals are stored in an explicit repository keyed by collection and
proposal id, so the record itself carries no back pointer. -/
structure Proposal where
  id : String
  creator : Principal
  description : String
  ptype : ProposalType
  status : ProposalStatus
  created_at : Nat
  expires_at : Nat
  votes : List VoteRecord
  external_ref : Option String
deriving DecidableEq, Repr

/-- Collection record (spec §3), matching the fields the frontend reads from
the candid `Collection` type (part_001, part_002). -/
structure Collection where
  id : String
  name : String
  description : String
  creator : Principal
  admins : List Principal
  governance_model : GovernanceModel
  threshold : Nat
  quorum_threshold : Nat
  governance_token : Option String
  is_permissionless : Bool
deriving DecidableEq, Repr

/-- Error kinds of the backend canister, reconstructed from the variants the
frontend handlers destructure: `NotAuthorized`, `InvalidOperation`,
`InvalidInput`, `BluebandError` in ProposalsPage.tsx `handleExecuteProposal`
(lines 140-150), `NotFound`, `NotAuthorized`, `InvalidInput` in the document
adder (part_004 lines 164-187), and `BluebandError`, `InvalidInput`,
`NotAuthorized`, `InvalidOperation` in `handleCreateCollection`
(part_004 lines 865-873). -/
inductive CanisterError
  | NotAuthorized (msg : String)
  | InvalidInput (msg : String)
  | InvalidOperation (msg : String)
  | NotFound (msg : String)
  | BluebandError (msg : String)
deriving DecidableEq, Repr

/-- The kind (variant name) of a canister error, disregarding its payload. -/
def errorKindName : CanisterError → String
  | CanisterError.NotAuthorized _ => "NotAuthorized"
  | CanisterError.InvalidInput _ => "InvalidInput"
  | CanisterError.InvalidOperation _ => "InvalidOperation"
  | CanisterError.NotFound _ => "NotFound"
  | CanisterError.BluebandError _ => "BluebandError"

/-- The five error kind names listed by spec §7. -/
def specErrorKindNames : List String :=
  ["NotAuthorized", "InvalidInput", "InvalidOperation", "NotFound",
   "ExternalServiceError"]

/-- The error kind names the backend actually uses, per the frontend
handlers: spec §7's embedding-service wrapper is named `BluebandError`. -/
def backendErrorKindNames : List String :=
  ["NotAuthorized", "InvalidInput", "InvalidOperation", "NotFound",
   "BluebandError"]

/- ## Query store (src/src/clanopedia_frontend/src/store/queryStore.ts) -/

/-- A single search result row, as stored by the query store
(queryStore.ts lines 3-10).  The numeric `score` is carried opaquely. -/
structure QueryResult where
  id : String
  score : Int
  title : String
  date : String
  author : String
  sourceLink : String
deriving DecidableEq, Repr

/-- A recorded query (queryStore.ts lines 12-19). -/
structure QueryRecord where
  id : String
  collectionId : String
  query : String
  timestamp : Nat
  results : List QueryResult
  timeTaken : Int
deriving DecidableEq, Repr

/-- The zustand store state (queryStore.ts lines 34-36): the query list and
the current index, initially `-1`. -/
structure QueryStoreState where
  queries : List QueryRecord
  currentQueryIndex : Int
deriving DecidableEq, Repr

/-- `addQuery` (queryStore.ts lines 38-52): builds the new query record with
`Date.now()` (passed here as `now`), appends it to the list and sets the
current index to the previous length. -/
def addQuery (s : QueryStoreState) (now : Nat) (collectionId query : String)
    (results : List QueryResult) (timeTaken : Int) : QueryStoreState :=
  let newQuery : QueryRecord :=
    { id := toString now, collectionId := collectionId, query := query,
      timestamp := now, results := results, timeTaken := timeTaken }
  { queries := s.queries ++ [newQuery],
    currentQueryIndex := (s.queries.length : Int) }

/-- `getCurrentQuery` (queryStore.ts lines 58-61): the query at
`currentQueryIndex` when the index is non-negative (an out-of-range JS index
reads as undefined, i.e. `none`). -/
def getCurrentQuery (s : QueryStoreState) : Option QueryRecord :=
  if 0 ≤ s.currentQueryIndex then s.queries[s.currentQueryIndex.toNat]?
  else none

/-- `hasNextQuery` (queryStore.ts lines 78-81). -/
def hasNextQuery (s : QueryStoreState) : Bool :=
  s.currentQueryIndex < (s.queries.length : Int) - 1

/-- `hasPreviousQuery` (queryStore.ts lines 73-76). -/
def hasPreviousQuery (s : QueryStoreState) : Bool :=
  0 < s.currentQueryIndex

/- ## Governance engine (modelled from the spec; the backend canister is not
among the shipped sources) -/

/-- Outcome of a tally run (spec §4.1). -/
inductive TallyResult
  | Pending
  | Approved
  | Rejected
deriving DecidableEq, Repr

/-- Number of distinct "Yes" voters among the recorded votes (spec §4.1,
Multisig rule). -/
def yesVoterCount (votes : List VoteRecord) : Nat :=
  (((votes.filter fun v => v.choice = VoteChoice.Yes).map fun v =>
      v.voter)).dedup.length

/-- Cumulative weight of the "Yes" votes (spec §4.1, TokenBased rule). -/
def yesWeight (votes : List VoteRecord) : Nat :=
  (((votes.filter fun v => v.choice = VoteChoice.Yes).map fun v =>
      v.weight)).sum

/-- Modelled from the spec: the Governance Strategy Resolver's `tally`
(spec §4.1), absent with the backend canister.  Multisig approves when
distinct "Yes" votes reach the threshold and is never forced to Rejected;
TokenBased approves when cumulative "Yes" weight over total supply reaches
`quorum_threshold` percent (the comparison is inclusive); Permissionless is
vacuously approved; SnsIntegrated ignores the local tally. -/
def tally (c : Collection) (totalSupply : Nat) (votes : List VoteRecord) :
    TallyResult :=
  match c.governance_model with
  | GovernanceModel.Permissionless => TallyResult.Approved
  | GovernanceModel.Multisig =>
      if c.threshold ≤ yesVoterCount votes then TallyResult.Approved
      else TallyResult.Pending
  | GovernanceModel.TokenBased =>
      if c.quorum_threshold * totalSupply ≤ 100 * yesWeight votes then
        TallyResult.Approved
      else TallyResult.Pending
  | GovernanceModel.SnsIntegrated => TallyResult.Pending

/-- Modelled from the spec: `isEligibleVoter` (spec §4.1), absent with the
backend canister.  Multisig and Permissionless voters are the admins;
TokenBased voters are principals with a non-zero balance; SnsIntegrated local
votes are informational only. -/
def isEligibleVoter (c : Collection) (voter : Principal) (balance : Nat) :
    Bool :=
  match c.governance_model with
  | GovernanceModel.Permissionless => voter ∈ c.admins
  | GovernanceModel.Multisig => voter ∈ c.admins
  | GovernanceModel.TokenBased => balance ≠ 0
  | GovernanceModel.SnsIntegrated => true

/-- Modelled from the spec: lazy expiry (spec §4.2, §9), absent with the
backend canister.  Any access to an `Active` proposal whose `expires_at` has
passed converts it to `Expired`; the caller persists the returned record. -/
def resolveExpiry (p : Proposal) (now : Nat) : Proposal :=
  if p.status = ProposalStatus.Active ∧ p.expires_at < now then
    { p with status := ProposalStatus.Expired }
  else p

/-- Result of a vote-cast call: the typed result together with the proposal
record as persisted by the call (spec §4.3; lazy-expiry updates are persisted
even when the vote itself is rejected, spec §4.2). -/
structure VoteOutcome where
  result : Except CanisterError Unit
  proposal : Proposal
deriving Repr

/-- Modelled from the spec: the Vote Tally Engine's `castVote` (spec §4.3),
absent with the backend canister.  Rejects ineligible voters
(`NotAuthorized`), proposals not `Active` after lazy-expiry resolution
(`InvalidOperation`) and duplicate voters (`InvalidOperation`); on success
records the vote (with the voter's balance as its weight, spec §4.1) and
applies any transition the tally yields (spec §4.2). -/
def castVote (c : Collection) (p : Proposal) (voter : Principal)
    (choice : VoteChoice) (balance totalSupply now : Nat) : VoteOutcome :=
  let p' := resolveExpiry p now
  if ¬ isEligibleVoter c voter balance then
    ⟨Except.error (CanisterError.NotAuthorized "voter is not eligible"), p'⟩
  else if p'.status ≠ ProposalStatus.Active then
    ⟨Except.error (CanisterError.InvalidOperation "proposal is not active"),
      p'⟩
  else if p'.votes.any fun v => v.voter = voter then
    ⟨Except.error (CanisterError.InvalidOperation "voter has already voted"),
      p'⟩
  else
    let votes' := p'.votes ++ [⟨voter, choice, balance⟩]
    match tally c totalSupply votes' with
    | TallyResult.Approved =>
        ⟨Except.ok (),
          { p' with votes := votes', status := ProposalStatus.Approved }⟩
    | TallyResult.Rejected =>
        ⟨Except.ok (),
          { p' with votes := votes', status := ProposalStatus.Rejected }⟩
    | TallyResult.Pending => ⟨Except.ok (), { p' with votes := votes' }⟩

/-- Modelled from the spec: `canExecute` (spec §4.1, §4.4), absent with the
backend canister.  The spec details no per-model execution rule beyond admins
executing (Permissionless: "any admin may create and, immediately, execute"),
so execution authority is admin membership. -/
def canExecute (c : Collection) (caller : Principal) : Bool :=
  caller ∈ c.admins

/-- Per-document embedding outcome reported by a batch execution
(spec §4.4). -/
structure EmbedOutcome where
  doc : String
  success : Bool
deriving DecidableEq, Repr

/-- Modelled from the spec: the bounded per-document retry (spec §4.4, "up to
3" attempts); `attempt n` tells whether the n-th call to the embedding
service succeeds, so a permanently failing document is one whose attempts all
fail. -/
def embedWithRetry (attempt : Nat → Bool) : Bool :=
  attempt 0 || attempt 1 || attempt 2

/-- Result of an execute call: the typed result, the collection and proposal
records as persisted, and the per-document embedding outcomes dispatched by
this call (empty when nothing was dispatched). -/
structure ExecOutcome where
  result : Except CanisterError Unit
  collection : Collection
  proposal : Proposal
  effects : List EmbedOutcome
deriving Repr

/-- Modelled from the spec: the configuration effects of the Proposal
Executor (spec §4.4), absent with the backend canister.  `RemoveAdmin` fails
with `InvalidOperation` when it would empty the admin set; threshold and
quorum changes validate their bounds and fail with `InvalidInput` when out of
range; embedding proposal types carry no configuration effect. -/
def applyConfigEffect (c : Collection) : ProposalType →
    Except CanisterError Collection
  | ProposalType.AddAdmin a =>
      Except.ok { c with
        admins := if a ∈ c.admins then c.admins else c.admins ++ [a] }
  | ProposalType.RemoveAdmin a =>
      let rest := c.admins.filter fun x => x ≠ a
      if rest.isEmpty then
        Except.error
          (CanisterError.InvalidOperation "cannot remove the last admin")
      else Except.ok { c with admins := rest }
  | ProposalType.ChangeThreshold v =>
      if 1 ≤ v ∧ v ≤ c.admins.length then
        Except.ok { c with threshold := v }
      else Except.error (CanisterError.InvalidInput "threshold out of range")
  | ProposalType.UpdateQuorum v =>
      if 1 ≤ v ∧ v ≤ 100 then Except.ok { c with quorum_threshold := v }
      else Except.error (CanisterError.InvalidInput "quorum out of range")
  | ProposalType.TransferGenesis newOwner =>
      Except.ok { c with creator := newOwner }
  | ProposalType.EmbedDocument _ => Except.ok c
  | ProposalType.BatchEmbed _ => Except.ok c

/-- Modelled from the spec: the Proposal Executor's `execute` (spec §4.4),
absent with the backend canister.  After lazy-expiry resolution a non-
`Approved` proposal fails with `InvalidOperation` (spec §4.2: terminal
proposals accept no further execute calls); an unauthorized caller fails with
`NotAuthorized`; embedding proposals transition to `Executed` and dispatch
per-document calls whose failures are reported, never rolled back; local
configuration effects are validated first, so a validation error leaves the
proposal `Approved` and the collection untouched (spec §4.4, §7). -/
def execute (c : Collection) (p : Proposal) (caller : Principal)
    (oracle : String → Nat → Bool) (now : Nat) : ExecOutcome :=
  let p' := resolveExpiry p now
  if p'.status ≠ ProposalStatus.Approved then
    ⟨Except.error (CanisterError.InvalidOperation "proposal is not approved"),
      c, p', []⟩
  else if ¬ canExecute c caller then
    ⟨Except.error
        (CanisterError.NotAuthorized "caller is not authorized to execute"),
      c, p', []⟩
  else
    match p'.ptype with
    | ProposalType.EmbedDocument docs =>
        ⟨Except.ok (), c, { p' with status := ProposalStatus.Executed },
          docs.map fun d => ⟨d, embedWithRetry (oracle d)⟩⟩
    | ProposalType.BatchEmbed docIds =>
        ⟨Except.ok (), c, { p' with status := ProposalStatus.Executed },
          docIds.map fun d => ⟨d, embedWithRetry (oracle d)⟩⟩
    | pt =>
        match applyConfigEffect c pt with
        | Except.ok c2 =>
            ⟨Except.ok (), c2, { p' with status := ProposalStatus.Executed },
              []⟩
        | Except.error e => ⟨Except.error e, c, p', []⟩

/-- The collection configuration record sent by the frontend `handleSave`
(part_001 lines 99-108) and consumed by the backend update operation. -/
structure CollectionConfig where
  name : String
  description : String
  threshold : Nat
  quorum_threshold : Nat
  is_permissionless : Bool
  governance_model : GovernanceModel
  admins : List Principal
  governance_token : Option String
deriving DecidableEq, Repr

/-- Modelled from the spec: `update_collection` (spec §6), absent with the
backend canister.  Per spec §3 the governance model is immutable after
creation and the admin set and creator change only through governance
proposals, so the update applies the config's mutable fields (name,
description, threshold, quorum, permissionless flag) and preserves the
rest. -/
def update_collection (c : Collection) (cfg : CollectionConfig) :
    Collection :=
  { c with
    name := cfg.name
    description := cfg.description
    threshold := cfg.threshold
    quorum_threshold := cfg.quorum_threshold
    is_permissionless := cfg.is_permissionless }

/-- Modelled from the spec: `create_collection` (spec §6), absent with the
backend canister.  Validation failures return `InvalidInput`; creation also
registers the collection with the external embedding service (blueband), and
a failure there is wrapped in the `BluebandError` kind that
`handleCreateCollection` destructures (part_004 line 865). -/
def create_collection (cfg : CollectionConfig) (creator : Principal)
    (cid : String) (bluebandOk : Bool) : Except CanisterError Collection :=
  if cfg.admins.isEmpty then
    Except.error (CanisterError.InvalidInput "admins must not be empty")
  else if ¬ bluebandOk then
    Except.error
      (CanisterError.BluebandError
        "failed to create collection in the embedding service")
  else
    Except.ok
      { id := cid, name := cfg.name, description := cfg.description,
        creator := creator, admins := cfg.admins,
        governance_model := cfg.governance_model,
        threshold := cfg.threshold,
        quorum_threshold := cfg.quorum_threshold,
        governance_token := cfg.governance_token,
        is_permissionless := cfg.is_permissionless }

/-- The config object built by `handleSave` in the collection settings page
(part_001 lines 99-108): the edited settings fields together with the
collection's existing admins and governance token. -/
def handleSaveConfig (name description : String)
    (threshold quorum_threshold : Nat) (is_permissionless : Bool)
    (governance_model : GovernanceModel) (currentCollection : Collection) :
    CollectionConfig :=
  { name := name
    description := description
    threshold := threshold
    quorum_threshold := quorum_threshold
    is_permissionless := is_permissionless
    governance_model := governance_model
    admins := currentCollection.admins
    governance_token := currentCollection.governance_token }

/- ## Concrete records used by the closed theorems -/

/-- A concrete multisig collection: three admins, threshold two. -/
def demoMultisig : Collection :=
  { id := "c1", name := "docs", description := "team docs",
    creator := "alice", admins := ["alice", "bob", "carol"],
    governance_model := GovernanceModel.Multisig, threshold := 2,
    quorum_threshold := 50, governance_token := none,
    is_permissionless := false }

/-- A concrete token-based collection with `quorum_threshold = 50`. -/
def demoToken : Collection :=
  { demoMultisig with
    id := "c2",
    governance_model := GovernanceModel.TokenBased,
    governance_token := some "tok" }

/-- A concrete collection whose admin set is the single principal
`"alice"`. -/
def soleAdminCol : Collection :=
  { demoMultisig with id := "c3", admins := ["alice"], threshold := 1 }

/-- A fresh proposal of the given type: `Active`, no votes, expiring at
time 100. -/
def demoProposal (pt : ProposalType) : Proposal :=
  { id := "p1", creator := "alice", description := "change",
    ptype := pt, status := ProposalStatus.Active, created_at := 0,
    expires_at := 100, votes := [], external_ref := none }

/-- A concrete collection configuration. -/
def demoCfg : CollectionConfig :=
  { name := "docs", description := "team docs", threshold := 1,
    quorum_threshold := 50, is_permissionless := false,
    governance_model := GovernanceModel.Multisig, admins := ["alice"],
    governance_token := none }

/- ## Helper lemmas -/

/-- Lazy expiry leaves a proposal untouched when its deadline has not
passed. -/
theorem resolveExpiry_of_not_past (p : Proposal) (now : Nat)
    (h : ¬ p.expires_at < now) : resolveExpiry p now = p := by
  unfold resolveExpiry
  rw [if_neg]
  rintro ⟨-, h2⟩
  exact h h2

/-- Lazy expiry only touches `Active` proposals. -/
theorem resolveExpiry_of_ne_active (p : Proposal) (now : Nat)
    (h : p.status ≠ ProposalStatus.Active) : resolveExpiry p now = p := by
  unfold resolveExpiry
  rw [if_neg]
  rintro ⟨h1, -⟩
  exact h h1

/-- Configuration effects preserve the governance model. -/
theorem applyConfigEffect_model (c c2 : Collection) (pt : ProposalType)
    (h : applyConfigEffect c pt = Except.ok c2) :
    c2.governance_model = c.governance_model := by
  cases pt <;> simp only [applyConfigEffect] at h
  case AddAdmin a => cases h; rfl
  case RemoveAdmin a =>
    split at h
    · cases h
    · cases h; rfl
  case ChangeThreshold v =>
    split at h
    · cases h; rfl
    · cases h
  case UpdateQuorum v =>
    split at h
    · cases h; rfl
    · cases h
  case TransferGenesis o => cases h; rfl
  case EmbedDocument docs => cases h; rfl
  case BatchEmbed ids => cases h; rfl

/-- Configuration effects never empty the admin set. -/
theorem applyConfigEffect_admins_ne_nil (c c2 : Collection)
    (pt : ProposalType) (hne : c.admins ≠ [])
    (h : applyConfigEffect c pt = Except.ok c2) : c2.admins ≠ [] := by
  cases pt <;> simp only [applyConfigEffect] at h
  case AddAdmin a =>
    cases h
    by_cases hmem : a ∈ c.admins <;> simp [hmem, hne]
  case RemoveAdmin a =>
    split at h
    · cases h
    · rename_i hrest
      cases h
      simpa [List.isEmpty_iff] using hrest
  case ChangeThreshold v =>
    split at h
    · cases h; exact hne
    · cases h
  case UpdateQuorum v =>
    split at h
    · cases h; exact hne
    · cases h
  case TransferGenesis o => cases h; exact hne
  case EmbedDocument docs => cases h; exact hne
  case BatchEmbed ids => cases h; exact hne

/-- An execute call on a terminal (non-`Active`, non-`Approved`) proposal
fails with `InvalidOperation` and changes nothing. -/
theorem execute_of_terminal (c : Collection) (p : Proposal)
    (caller : Principal) (oracle : String → Nat → Bool) (now : Nat)
    (h1 : p.status ≠ ProposalStatus.Active)
    (h2 : p.status ≠ ProposalStatus.Approved) :
    execute c p caller oracle now =
      ⟨Except.error
          (CanisterError.InvalidOperation "proposal is not approved"),
        c, p, []⟩ := by
  have hre : resolveExpiry p now = p := resolveExpiry_of_ne_active p now h1
  simp only [execute, hre]
  rw [if_pos h2]

/-- A vote cast by an eligible voter on a proposal that is not `Active`
(and whose expiry needs no resolution) fails with `InvalidOperation` and
leaves the proposal unchanged. -/
theorem castVote_of_inactive (c : Collection) (p : Proposal)
    (voter : Principal) (choice : VoteChoice) (balance totalSupply now : Nat)
    (helig : isEligibleVoter c voter balance = true)
    (h1 : p.status ≠ ProposalStatus.Active) :
    castVote c p voter choice balance totalSupply now =
      ⟨Except.error
          (CanisterError.InvalidOperation "proposal is not active"), p⟩ := by
  have hre : resolveExpiry p now = p := resolveExpiry_of_ne_active p now h1
  simp only [castVote, hre, helig]
  rw [if_neg (by simp), if_pos h1]

/-- Claim C2: the Multisig tally: a successful vote cast on a Multisig
collection approves the proposal exactly when the number of distinct "Yes"
voters reaches the threshold, leaves it `Active` otherwise, and never forces
`Rejected`.  Instantiated with three admins and threshold two (see the
witness), one "Yes" vote leaves the proposal `Active` and a second distinct
"Yes" vote makes it `Approved` without a third vote. -/
theorem multisig_tally_correct (c : Collection) (p : Proposal)
    (voter : Principal) (choice : VoteChoice) (balance totalSupply now : Nat)
    (hm : c.governance_model = GovernanceModel.Multisig)
    (helig : isEligibleVoter c voter balance = true)
    (hact : p.status = ProposalStatus.Active)
    (hexp : ¬ p.expires_at < now)
    (hnew : (p.votes.any fun v => v.voter = voter) = false) :
    (castVote c p voter choice balance totalSupply now).result =
      Except.ok () ∧
    (castVote c p voter choice balance totalSupply now).proposal.votes =
      p.votes ++ [⟨voter, choice, balance⟩] ∧
    ((castVote c p voter choice balance totalSupply now).proposal.status =
        ProposalStatus.Approved ↔
      c.threshold ≤ yesVoterCount (p.votes ++ [⟨voter, choice, balance⟩])) ∧
    ((castVote c p voter choice balance totalSupply now).proposal.status =
        ProposalStatus.Approved ∨
      (castVote c p voter choice balance totalSupply now).proposal.status =
        ProposalStatus.Active) ∧
    (castVote c p voter choice balance totalSupply now).proposal.status ≠
      ProposalStatus.Rejected := by
  have hre : resolveExpiry p now = p := resolveExpiry_of_not_past p now hexp
  by_cases hth :
      c.threshold ≤ yesVoterCount (p.votes ++ [⟨voter, choice, balance⟩])
  · simp [castVote, hre, helig, hact, hnew, tally, hm, hth]
  · simp [castVote, hre, helig, hact, hnew, tally, hm, hth]

/-- Claim C2 (witness): on the three-admin, threshold-two multisig
collection, one "Yes" vote leaves the fresh proposal `Active`; a second
distinct "Yes" vote yields `Approved`, as computed by the tally theorem. -/
theorem multisig_tally_correct_witness :
    (castVote demoMultisig (demoProposal (ProposalType.ChangeThreshold 3))
        "alice" VoteChoice.Yes 0 0 5).proposal.status =
      ProposalStatus.Active ∧
    (castVote demoMultisig
        (castVote demoMultisig
          (demoProposal (ProposalType.ChangeThreshold 3))
          "alice" VoteChoice.Yes 0 0 5).proposal
        "bob" VoteChoice.Yes 0 0 5).proposal.status =
      ProposalStatus.Approved ∧
    ((castVote demoMultisig
        (castVote demoMultisig
          (demoProposal (ProposalType.ChangeThreshold 3))
          "alice" VoteChoice.Yes 0 0 5).proposal
        "bob" VoteChoice.Yes 0 0 5).proposal.status =
        ProposalStatus.Approved ↔
      demoMultisig.threshold ≤
        yesVoterCount
          ((castVote demoMultisig
              (demoProposal (ProposalType.ChangeThreshold 3))
              "alice" VoteChoice.Yes 0 0 5).proposal.votes ++
            [⟨"bob", VoteChoice.Yes, 0⟩])) := by
  refine ⟨by decide, by decide, ?_⟩
  exact (multisig_tally_correct demoMultisig
    (castVote demoMultisig (demoProposal (ProposalType.ChangeThreshold 3))
      "alice" VoteChoice.Yes 0 0 5).proposal
    "bob" VoteChoice.Yes 0 0 5 rfl (by decide) (by decide) (by decide)
    (by decide)).2.2.1

/-- Claim C3: the TokenBased tally: a successful vote cast on a token-based
collection approves the proposal exactly when the cumulative "Yes" weight
over the total token supply reaches `quorum_threshold` percent, with the
comparison inclusive at the boundary, and leaves it `Active` otherwise. -/
theorem tokenbased_tally_correct (c : Collection) (p : Proposal)
    (voter : Principal) (choice : VoteChoice) (balance totalSupply now : Nat)
    (hm : c.governance_model = GovernanceModel.TokenBased)
    (helig : isEligibleVoter c voter balance = true)
    (hact : p.status = ProposalStatus.Active)
    (hexp : ¬ p.expires_at < now)
    (hnew : (p.votes.any fun v => v.voter = voter) = false) :
    (castVote c p voter choice balance totalSupply now).result =
      Except.ok () ∧
    (castVote c p voter choice balance totalSupply now).proposal.votes =
      p.votes ++ [⟨voter, choice, balance⟩] ∧
    ((castVote c p voter choice balance totalSupply now).proposal.status =
        ProposalStatus.Approved ↔
      c.quorum_threshold * totalSupply ≤
        100 * yesWeight (p.votes ++ [⟨voter, choice, balance⟩])) ∧
    ((castVote c p voter choice balance totalSupply now).proposal.status =
        ProposalStatus.Approved ∨
      (castVote c p voter choice balance totalSupply now).proposal.status =
        ProposalStatus.Active) ∧
    (castVote c p voter choice balance totalSupply now).proposal.status ≠
      ProposalStatus.Rejected := by
  have hre : resolveExpiry p now = p := resolveExpiry_of_not_past p now hexp
  by_cases hq :
      c.quorum_threshold * totalSupply ≤
        100 * yesWeight (p.votes ++ [⟨voter, choice, balance⟩])
  · simp [castVote, hre, helig, hact, hnew, tally, hm, hq]
  · simp [castVote, hre, helig, hact, hnew, tally, hm, hq]

/-- Claim C3 (witness): with total supply 1000 and `quorum_threshold = 50`,
a cumulative "Yes" weight of 499 leaves the proposal `Active`, and reaching
weight 500 makes it `Approved`, as computed by the tally theorem. -/
theorem tokenbased_tally_correct_witness :
    (castVote demoToken (demoProposal (ProposalType.UpdateQuorum 60))
        "u1" VoteChoice.Yes 499 1000 5).proposal.status =
      ProposalStatus.Active ∧
    (castVote demoToken
        (castVote demoToken (demoProposal (ProposalType.UpdateQuorum 60))
          "u1" VoteChoice.Yes 499 1000 5).proposal
        "u2" VoteChoice.Yes 1 1000 5).proposal.status =
      ProposalStatus.Approved ∧
    ((castVote demoToken
        (castVote demoToken (demoProposal (ProposalType.UpdateQuorum 60))
          "u1" VoteChoice.Yes 499 1000 5).proposal
        "u2" VoteChoice.Yes 1 1000 5).proposal.status =
        ProposalStatus.Approved ↔
      demoToken.quorum_threshold * 1000 ≤
        100 *
          yesWeight
            ((castVote demoToken
                (demoProposal (ProposalType.UpdateQuorum 60))
                "u1" VoteChoice.Yes 499 1000 5).proposal.votes ++
              [⟨"u2", VoteChoice.Yes, 1⟩])) := by
  refine ⟨by decide, by decide, ?_⟩
  exact (tokenbased_tally_correct demoToken
    (castVote demoToken (demoProposal (ProposalType.UpdateQuorum 60))
      "u1" VoteChoice.Yes 499 1000 5).proposal
    "u2" VoteChoice.Yes 1 1000 5 rfl (by decide) (by decide) (by decide)
    (by decide)).2.2.1

/-- A concrete embedding oracle under which document `"d2"` permanently
fails (every attempt returns false) and every other document succeeds on the
first attempt. -/
def demoOracle : String → Nat → Bool := fun d _ => d != "d2"

/-- A concrete `Approved` threshold-change proposal. -/
def demoApproved : Proposal :=
  { demoProposal (ProposalType.ChangeThreshold 3) with
    status := ProposalStatus.Approved }

/-- Claim C4: once a proposal's `expires_at` has passed, the first access
(here an otherwise valid vote cast) converts the `Active` proposal to
`Expired` and persists it; the vote itself fails with `InvalidOperation`,
the status reads `Expired` on every later access, and neither a further vote
nor an execute call ever observes or restores `Active`. -/
theorem lazy_expiry_on_access (c : Collection) (p : Proposal)
    (voter voter2 caller : Principal) (choice choice2 : VoteChoice)
    (balance totalSupply bal2 supply2 now now2 now3 now4 : Nat)
    (oracle : String → Nat → Bool)
    (helig : isEligibleVoter c voter balance = true)
    (helig2 : isEligibleVoter c voter2 bal2 = true)
    (hact : p.status = ProposalStatus.Active)
    (hexp : p.expires_at < now) :
    (castVote c p voter choice balance totalSupply now).result =
      Except.error
        (CanisterError.InvalidOperation "proposal is not active") ∧
    (castVote c p voter choice balance totalSupply now).proposal.status =
      ProposalStatus.Expired ∧
    resolveExpiry (castVote c p voter choice balance totalSupply now).proposal
        now2 =
      (castVote c p voter choice balance totalSupply now).proposal ∧
    castVote c (castVote c p voter choice balance totalSupply now).proposal
        voter2 choice2 bal2 supply2 now3 =
      ⟨Except.error
          (CanisterError.InvalidOperation "proposal is not active"),
        (castVote c p voter choice balance totalSupply now).proposal⟩ ∧
    execute c (castVote c p voter choice balance totalSupply now).proposal
        caller oracle now4 =
      ⟨Except.error
          (CanisterError.InvalidOperation "proposal is not approved"),
        c, (castVote c p voter choice balance totalSupply now).proposal,
        []⟩ := by
  have h1 : resolveExpiry p now =
      { p with status := ProposalStatus.Expired } := by
    simp [resolveExpiry, hact, hexp]
  have hcv : castVote c p voter choice balance totalSupply now =
      ⟨Except.error
          (CanisterError.InvalidOperation "proposal is not active"),
        { p with status := ProposalStatus.Expired }⟩ := by
    simp only [castVote, h1]
    rw [if_neg (by simp [helig]), if_pos (by simp)]
  rw [hcv]
  refine ⟨rfl, rfl, ?_, ?_, ?_⟩
  · exact resolveExpiry_of_ne_active _ now2 (by simp)
  · exact castVote_of_inactive c _ voter2 choice2 bal2 supply2 now3 helig2
      (by simp)
  · exact execute_of_terminal c _ caller oracle now4 (by simp) (by simp)

/-- Claim C4 (witness): on the multisig collection, an admin's vote at time
200 on a proposal that expired at time 100 fails with `InvalidOperation`,
and the persisted proposal reads `Expired`. -/
theorem lazy_expiry_on_access_witness :
    (castVote demoMultisig (demoProposal (ProposalType.AddAdmin "dave"))
        "alice" VoteChoice.Yes 0 0 200).result =
      Except.error
        (CanisterError.InvalidOperation "proposal is not active") ∧
    (castVote demoMultisig (demoProposal (ProposalType.AddAdmin "dave"))
        "alice" VoteChoice.Yes 0 0 200).proposal.status =
      ProposalStatus.Expired := by
  have h := lazy_expiry_on_access demoMultisig
    (demoProposal (ProposalType.AddAdmin "dave")) "alice" "bob" "carol"
    VoteChoice.Yes VoteChoice.No 0 0 0 0 200 201 202 203 demoOracle
    (by decide) (by decide) rfl (by decide)
  exact ⟨h.1, h.2.1⟩

/-- Claim C6: executing an `Approved` `BatchEmbed` proposal transitions it to
`Executed` and reports, per document, whether the (retried) embedding call
succeeded, without reverting the `Executed` status or the collection when
some documents permanently fail. -/
theorem batchembed_partial_failure (c : Collection) (p : Proposal)
    (caller : Principal) (oracle : String → Nat → Bool) (now : Nat)
    (docs : List String)
    (hpt : p.ptype = ProposalType.BatchEmbed docs)
    (hst : p.status = ProposalStatus.Approved)
    (hcan : canExecute c caller = true) :
    (execute c p caller oracle now).result = Except.ok () ∧
    (execute c p caller oracle now).proposal.status =
      ProposalStatus.Executed ∧
    (execute c p caller oracle now).effects =
      docs.map (fun d => ⟨d, embedWithRetry (oracle d)⟩) ∧
    (execute c p caller oracle now).collection = c := by
  have hre : resolveExpiry p now = p :=
    resolveExpiry_of_ne_active p now (by simp [hst])
  simp only [execute, hre]
  rw [if_neg (by simp [hst]), if_neg (by simp [hcan]), hpt]
  exact ⟨rfl, rfl, rfl, rfl⟩

/-- Claim C6 (witness): a `BatchEmbed` of the three documents `d1`, `d2`,
`d3` where the embedding of `d2` permanently fails still ends `Executed`,
and the execution result lists 2 successes and 1 failure. -/
theorem batchembed_partial_failure_witness :
    (execute demoMultisig
        { demoProposal (ProposalType.BatchEmbed ["d1", "d2", "d3"]) with
          status := ProposalStatus.Approved }
        "alice" demoOracle 5).proposal.status = ProposalStatus.Executed ∧
    ((execute demoMultisig
        { demoProposal (ProposalType.BatchEmbed ["d1", "d2", "d3"]) with
          status := ProposalStatus.Approved }
        "alice" demoOracle 5).effects.filter fun e => e.success).length =
      2 ∧
    ((execute demoMultisig
        { demoProposal (ProposalType.BatchEmbed ["d1", "d2", "d3"]) with
          status := ProposalStatus.Approved }
        "alice" demoOracle 5).effects.filter fun e => !e.success).length =
      1 := by
  refine ⟨(batchembed_partial_failure demoMultisig
    { demoProposal (ProposalType.BatchEmbed ["d1", "d2", "d3"]) with
      status := ProposalStatus.Approved }
    "alice" demoOracle 5 ["d1", "d2", "d3"] rfl rfl (by decide)).2.1,
    by decide, by decide⟩

/-- Claim C5: the admin set of a collection is never emptied by any
operation: proposal execution preserves non-emptiness, configuration update
leaves the admin set untouched, creation only succeeds with a non-empty
admin set, and executing a `RemoveAdmin` proposal that targets the sole
remaining admin fails with `InvalidOperation`, leaving the collection
unchanged and the proposal `Approved`. -/
theorem admin_set_never_empty :
    (∀ (c : Collection) (p : Proposal) (caller : Principal)
        (oracle : String → Nat → Bool) (now : Nat), c.admins ≠ [] →
      (execute c p caller oracle now).collection.admins ≠ []) ∧
    (∀ (c : Collection) (cfg : CollectionConfig),
      (update_collection c cfg).admins = c.admins) ∧
    (∀ (cfg : CollectionConfig) (creator : Principal) (cid : String)
        (ok : Bool) (c2 : Collection),
      create_collection cfg creator cid ok = Except.ok c2 →
      c2.admins ≠ []) ∧
    (∀ (c : Collection) (p : Proposal) (a caller : Principal)
        (oracle : String → Nat → Bool) (now : Nat),
      c.admins = [a] → p.ptype = ProposalType.RemoveAdmin a →
      p.status = ProposalStatus.Approved → canExecute c caller = true →
      (execute c p caller oracle now).result =
        Except.error
          (CanisterError.InvalidOperation "cannot remove the last admin") ∧
      (execute c p caller oracle now).collection = c ∧
      (execute c p caller oracle now).proposal.status =
        ProposalStatus.Approved) := by
  refine ⟨?_, ?_, ?_, ?_⟩
  · intro c p caller oracle now hne
    simp only [execute]
    split
    · exact hne
    · split
      · exact hne
      · split
        · exact hne
        · exact hne
        · split
          · rename_i c2 heq
            exact applyConfigEffect_admins_ne_nil c c2 _ hne heq
          · exact hne
  · intro c cfg
    rfl
  · intro cfg creator cid ok c2 h
    simp only [create_collection] at h
    split at h
    · cases h
    · split at h
      · cases h
      · rename_i hempty _
        cases h
        simpa [List.isEmpty_iff] using hempty
  · intro c p a caller oracle now hadm hpt hst hcan
    have hre : resolveExpiry p now = p :=
      resolveExpiry_of_ne_active p now (by simp [hst])
    simp only [execute, hre]
    rw [if_neg (by simp [hst]), if_neg (by simp [hcan]), hpt]
    simp [applyConfigEffect, hadm, hst]

/-- Claim C5 (witness): on the collection whose only admin is `"alice"`,
executing an approved `RemoveAdmin "alice"` proposal fails with
`InvalidOperation` and the admin set still reads `["alice"]`. -/
theorem admin_set_never_empty_witness :
    (execute soleAdminCol
        { demoProposal (ProposalType.RemoveAdmin "alice") with
          status := ProposalStatus.Approved }
        "alice" demoOracle 5).result =
      Except.error
        (CanisterError.InvalidOperation "cannot remove the last admin") ∧
    (execute soleAdminCol
        { demoProposal (ProposalType.RemoveAdmin "alice") with
          status := ProposalStatus.Approved }
        "alice" demoOracle 5).collection.admins = ["alice"] := by
  have h := admin_set_never_empty.2.2.2 soleAdminCol
    { demoProposal (ProposalType.RemoveAdmin "alice") with
      status := ProposalStatus.Approved }
    "alice" "alice" demoOracle 5 rfl rfl rfl (by decide)
  exact ⟨h.1, by rw [h.2.1]; rfl⟩

/-- Claim C1: a successful `execute` transitions the proposal to `Executed`,
and any subsequent `execute` on the same proposal — by any caller, at any
later time — fails with `InvalidOperation` while changing nothing and
dispatching no further side effects. -/
theorem execute_exactly_once (c : Collection) (p : Proposal)
    (caller caller2 : Principal) (oracle : String → Nat → Bool)
    (now now2 : Nat)
    (hok : (execute c p caller oracle now).result = Except.ok ()) :
    (execute c p caller oracle now).proposal.status =
      ProposalStatus.Executed ∧
    execute (execute c p caller oracle now).collection
        (execute c p caller oracle now).proposal caller2 oracle now2 =
      ⟨Except.error
          (CanisterError.InvalidOperation "proposal is not approved"),
        (execute c p caller oracle now).collection,
        (execute c p caller oracle now).proposal, []⟩ := by
  rcases hE : execute c p caller oracle now with ⟨res, c1, p1, eff⟩
  rw [hE] at hok
  simp only [execute] at hE
  split at hE
  · cases hE
    simp at hok
  · split at hE
    · cases hE
      simp at hok
    · split at hE
      · cases hE
        exact ⟨rfl,
          execute_of_terminal _ _ caller2 oracle now2 (by simp) (by simp)⟩
      · cases hE
        exact ⟨rfl,
          execute_of_terminal _ _ caller2 oracle now2 (by simp) (by simp)⟩
      · split at hE
        · cases hE
          exact ⟨rfl,
            execute_of_terminal _ _ caller2 oracle now2 (by simp) (by simp)⟩
        · cases hE
          simp at hok

/-- Claim C1 (witness): executing the approved threshold-change proposal on
the multisig collection succeeds and yields `Executed`; a second execute
call fails with `InvalidOperation` and changes nothing. -/
theorem execute_exactly_once_witness :
    (execute demoMultisig demoApproved "alice" demoOracle 5).proposal.status =
      ProposalStatus.Executed ∧
    execute (execute demoMultisig demoApproved "alice" demoOracle 5).collection
        (execute demoMultisig demoApproved "alice" demoOracle 5).proposal
        "bob" demoOracle 6 =
      ⟨Except.error
          (CanisterError.InvalidOperation "proposal is not approved"),
        (execute demoMultisig demoApproved "alice" demoOracle 5).collection,
        (execute demoMultisig demoApproved "alice" demoOracle 5).proposal,
        []⟩ :=
  execute_exactly_once demoMultisig demoApproved "alice" "bob" demoOracle 5 6
    rfl

/-- Claim C7: the governance model of a collection is immutable after
creation: updating the collection's configuration preserves the stored
governance-model variant regardless of the variant carried by the config,
and executing any proposal preserves it as well. -/
theorem governance_model_immutable :
    (∀ (c : Collection) (cfg : CollectionConfig),
      (update_collection c cfg).governance_model = c.governance_model) ∧
    (∀ (c : Collection) (p : Proposal) (caller : Principal)
        (oracle : String → Nat → Bool) (now : Nat),
      (execute c p caller oracle now).collection.governance_model =
        c.governance_model) := by
  constructor
  · intro c cfg
    rfl
  · intro c p caller oracle now
    simp only [execute]
    split
    · rfl
    · split
      · rfl
      · split
        · rfl
        · rfl
        · split
          · rename_i c2 heq
            exact applyConfigEffect_model c c2 _ heq
          · rfl

/-- Claim C8 (counterexample): `create_collection` reports an embedding-
service failure with the `BluebandError` kind, which is outside the claimed
taxonomy ending in `ExternalServiceError`. -/
theorem error_taxonomy_counterexample :
    create_collection demoCfg "alice" "col-1" false =
      Except.error
        (CanisterError.BluebandError
          "failed to create collection in the embedding service") ∧
    errorKindName
        (CanisterError.BluebandError
          "failed to create collection in the embedding service") ∉
      specErrorKindNames := by
  exact ⟨rfl, by decide⟩

/-- Claim C8 (amended): every error the backend operations return is one of
exactly five kinds — `NotAuthorized`, `InvalidInput`, `InvalidOperation`,
`NotFound`, or `BluebandError`; the embedding-service wrapper kind is named
`BluebandError`, not `ExternalServiceError`. -/
theorem error_taxonomy_amended (e : CanisterError) :
    errorKindName e ∈ backendErrorKindNames := by
  cases e <;> simp [errorKindName, backendErrorKindNames]

/-- Claim C9: the configuration `handleSave` passes to `update_collection`
carries the collection's existing admin set and governance token unchanged,
so saving settings neither changes the admin set nor the token reference. -/
theorem handleSave_preserves_admins_and_token (name description : String)
    (threshold quorum_threshold : Nat) (is_permissionless : Bool)
    (governance_model : GovernanceModel) (c : Collection) :
    (handleSaveConfig name description threshold quorum_threshold
        is_permissionless governance_model c).admins = c.admins ∧
    (handleSaveConfig name description threshold quorum_threshold
        is_permissionless governance_model c).governance_token =
      c.governance_token ∧
    (update_collection c
        (handleSaveConfig name description threshold quorum_threshold
          is_permissionless governance_model c)).admins = c.admins ∧
    (update_collection c
        (handleSaveConfig name description threshold quorum_threshold
          is_permissionless governance_model c)).governance_token =
      c.governance_token := by
  exact ⟨rfl, rfl, rfl, rfl⟩

/-- Claim C10: `addQuery` appends the new query at the end and points the
current index at it, so `getCurrentQuery` returns the just-added query and
`hasNextQuery` is false immediately afterwards. -/
theorem addQuery_sets_current (s : QueryStoreState) (now : Nat)
    (collectionId query : String) (results : List QueryResult)
    (timeTaken : Int) :
    getCurrentQuery (addQuery s now collectionId query results timeTaken) =
      some { id := toString now, collectionId := collectionId, query := query,
             timestamp := now, results := results, timeTaken := timeTaken } ∧
    hasNextQuery (addQuery s now collectionId query results timeTaken) =
      false := by
  constructor
  · simp [getCurrentQuery, addQuery]
  · simp [hasNextQuery, addQuery]
